import Mathlib

/-!
Verification of the sump-pump supervisory control loop
(`sump_pump_monitor.py`) against its natural-language specification.

The embedding below translates the monitor's data model and control flow
into Lean.  Telemetry values (power, voltage, temperature, time) are
rationals; the device snapshot is `Status`; the supervisor's mutable
loop variables form `SupState`; every externally visible effect of a
tick (actuator commands, notifications, sleeps) is recorded as an `Act`.
One iteration of the `while True` loop is the function `tick`; the
`try/except` boundary is `stepPair`; traces of the loop are `loopTrace`.
The recovery procedure is `power_cycle` and one safe-mode duty cycle is
`safeCycleStep`.
-/

namespace SumpPump

/-- Modes of the supervisor (module-level constants `MODE_NORMAL`,
`MODE_SAFE` in the source; the loop's `mode` variable only ever holds
`NORMAL`). -/
inductive Mode where
| normal
| safe
deriving DecidableEq

/-- One telemetry snapshot, as assembled by `get_power_status` from the
device reply (fields default when absent, hence total). -/
structure Status where
  output : Bool
  power : ℚ
  voltage : ℚ
  current : ℚ
  temp_c : ℚ
  illumination : String
  rssi : Int
  uptime : ℚ
deriving DecidableEq

/-- Threshold `POWER_THRESHOLD_WATTS` (default 100.0). -/
def POWER_THRESHOLD_WATTS : ℚ := 100

/-- Threshold `MAX_RUN_MINUTES` (default 3). -/
def MAX_RUN_MINUTES : ℚ := 3

/-- `POLL_INTERVAL_SECONDS` (default 30). -/
def POLL_INTERVAL_SECONDS : ℚ := 30

/-- `POWER_CYCLE_OFF_SECONDS` (fixed 10). -/
def POWER_CYCLE_OFF_SECONDS : ℚ := 10

/-- `POWER_CYCLE_SETTLE_SECONDS` (fixed 60). -/
def POWER_CYCLE_SETTLE_SECONDS : ℚ := 60

/-- `SAFE_RUN_SECONDS` (default 120). -/
def SAFE_RUN_SECONDS : ℚ := 120

/-- `SAFE_REST_SECONDS` (default 600). -/
def SAFE_REST_SECONDS : ℚ := 600

/-- `MAX_TEMP_C` (default 60.0), the hard temperature cutoff. -/
def MAX_TEMP_C : ℚ := 60

/-- `TEMP_WARN_C` (default 50.0). -/
def TEMP_WARN_C : ℚ := 50

/-- `VOLTAGE_LOW` (default 110.0). -/
def VOLTAGE_LOW : ℚ := 110

/-- `VOLTAGE_HIGH` (default 130.0). -/
def VOLTAGE_HIGH : ℚ := 130

/-- `RSSI_WARN` (default -80). -/
def RSSI_WARN : Int := -80

/-- `PUMP_POWER_LOW` (default 350.0). -/
def PUMP_POWER_LOW : ℚ := 350

/-- `PUMP_POWER_HIGH` (default 700.0). -/
def PUMP_POWER_HIGH : ℚ := 700

/-- `NO_RUN_ALERT_HOURS` (default 24). -/
def NO_RUN_ALERT_HOURS : ℚ := 24

/-- Number of poll iterations of the safe-mode run-period monitor
sub-loop: the source loops `while time.time() - run_start <
SAFE_RUN_SECONDS`, sleeping `POLL_INTERVAL_SECONDS` first in each
iteration, so with the defaults (120 s run, 30 s poll) exactly four
samples are taken, at elapsed 30 s, 60 s, 90 s and 120 s. -/
def SAFE_RUN_POLLS : ℕ := 4

/-- The subject line of each notification class sent by the monitor
(`send_notification` call sites), abstracted to a tag. -/
inductive NotifyKind where
| overtemp
| lightChanged
| rebooted
| unexpectedOff
| voltageLow
| voltageHigh
| wifiWeak
| tempRising
| powerAnomaly
| cycleFixed
| enterSafe
| safeDigest
| backToNormal
| noRun
deriving DecidableEq

/-- Externally visible effects of the monitor: actuator commands
(`turn_on` / `turn_off`), notifications, `time.sleep` calls, the log
line announcing a power-cycle attempt, and the blocking call into
`run_safe_mode` (whose internal behaviour is modelled separately by
`safeCycleStep`). -/
inductive Act where
| powerOn
| powerOff
| notify (k : NotifyKind)
| sleep (secs : ℚ)
| cycleAttempt
| runSafe
deriving DecidableEq

/-- `is_pump_running(status)`: true when a sample is present and its
power is strictly above `POWER_THRESHOLD_WATTS`; an absent sample
(`None`) counts as not running. -/
def is_pump_running (status : Option Status) : Bool :=
  match status with
  | none => false
  | some s => decide (POWER_THRESHOLD_WATTS < s.power)

/-- `check_temp_safety(status)`: fires exactly when `temp_c >
MAX_TEMP_C` (strict), in which case it turns the plug off and sends the
critical overtemp notification.  Returns whether it fired and the
effects it performed. -/
def check_temp_safety (s : Status) : Bool × List Act :=
  if MAX_TEMP_C < s.temp_c then
    (true, [Act.powerOff, Act.notify NotifyKind.overtemp])
  else
    (false, [])

/-- `power_cycle()`: off, wait 10 s, on, wait 60 s, then one sample
(passed in as `settle`); returns the effect sequence and the
"still stuck" result, which is `is_pump_running` of the settle
sample. -/
def power_cycle (settle : Option Status) : List Act × Bool :=
  ([Act.powerOff, Act.sleep POWER_CYCLE_OFF_SECONDS,
    Act.powerOn, Act.sleep POWER_CYCLE_SETTLE_SECONDS],
   is_pump_running settle)

/-- The supervisor loop's mutable variables (lines 325-334 of the
source). -/
structure SupState where
  mode : Mode
  running_since : Option ℚ
  last_illumination : Option String
  last_uptime : Option ℚ
  last_pump_run : ℚ
  no_run_alerted : Bool
  voltage_alerted : Bool
  rssi_alerted : Bool
  power_anomaly_alerted : Bool
  temp_warned : Bool
deriving DecidableEq

/-- Initial loop state at process start time `t0`: NORMAL mode, no open
run window, no remembered illumination/uptime, `last_pump_run`
initialised to the start time ("assume it ran recently at startup"),
all alert flags clear. -/
def initState (t0 : ℚ) : SupState :=
  { mode := Mode.normal
    running_since := none
    last_illumination := none
    last_uptime := none
    last_pump_run := t0
    no_run_alerted := false
    voltage_alerted := false
    rssi_alerted := false
    power_anomaly_alerted := false
    temp_warned := false }

/-- Environment input for one tick: the current wall-clock time, an
injected exception (`fault`), the tick's telemetry sample, and the
sample `power_cycle` would read after its settle wait if invoked this
tick. -/
structure TickInput where
  now : ℚ
  fault : Option String
  sample : Option Status
  settleSample : Option Status
deriving DecidableEq

/-- Illumination-change tracking (lines 356-367): when a previous value
is remembered, differs from the current one, was `"dark"` and the
current one is not, a notification is sent. -/
def illumAlert (last : Option String) (illum : String) : List Act :=
  match last with
  | none => []
  | some li =>
    if ¬ (illum = li) ∧ li = "dark" ∧ ¬ (illum = "dark") then
      [Act.notify NotifyKind.lightChanged]
    else
      []

/-- Uptime-regression tracking (lines 369-381): when a previous uptime
is remembered and the current one is smaller, a reboot notification is
sent. -/
def uptimeAlert (last : Option ℚ) (uptime : ℚ) : List Act :=
  match last with
  | none => []
  | some lu => if uptime < lu then [Act.notify NotifyKind.rebooted] else []

/-- Voltage detector (lines 396-410): out of `[VOLTAGE_LOW,
VOLTAGE_HIGH]` sets the flag and notifies on first breach (LOW vs HIGH
per side); in range clears the flag.  Returns (new flag, effects). -/
def voltageStep (alerted : Bool) (v : ℚ) : Bool × List Act :=
  if v < VOLTAGE_LOW ∨ VOLTAGE_HIGH < v then
    if alerted then
      (true, [])
    else
      (true, [Act.notify (if v < VOLTAGE_LOW then NotifyKind.voltageLow
                          else NotifyKind.voltageHigh)])
  else
    (false, [])

/-- WiFi-signal detector (lines 412-425): below `RSSI_WARN` sets the
flag and notifies on first breach; at or above clears it. -/
def rssiStep (alerted : Bool) (rssi : Int) : Bool × List Act :=
  if rssi < RSSI_WARN then
    if alerted then (true, []) else (true, [Act.notify NotifyKind.wifiWeak])
  else
    (false, [])

/-- Temperature early-warning detector (lines 427-439): fires once when
`TEMP_WARN_C < temp ≤ MAX_TEMP_C`; the flag clears when `temp ≤
TEMP_WARN_C` and is otherwise left as is. -/
def tempWarnStep (warned : Bool) (t : ℚ) : Bool × List Act :=
  if TEMP_WARN_C < t ∧ t ≤ MAX_TEMP_C then
    if warned then (true, []) else (true, [Act.notify NotifyKind.tempRising])
  else if t ≤ TEMP_WARN_C then
    (false, [])
  else
    (warned, [])

/-- The pump-running branch of the tick (lines 441-485): refresh
`last_pump_run`, open the run window when unset (clearing the
power-anomaly flag), evaluate the power-anomaly detector (only when the
window value is truthy and more than 30 s old), and when the run has
lasted at least `MAX_RUN_MINUTES`, invoke `power_cycle` and either
enter safe mode (still stuck) or notify success; either way the run
window closes. -/
def runningBranch (st0 : SupState) (inp : TickInput) (s : Status) :
    SupState × List Act :=
  let st1 := { st0 with last_pump_run := inp.now, no_run_alerted := false }
  let rsFlag : ℚ × Bool :=
    match st1.running_since with
    | none => (inp.now, false)
    | some r => (r, st1.power_anomaly_alerted)
  let rs := rsFlag.1
  let paFlag0 := rsFlag.2
  let paStep : Bool × List Act :=
    if paFlag0 = false ∧ (s.power < PUMP_POWER_LOW ∨ PUMP_POWER_HIGH < s.power) then
      if ¬ (rs = 0) ∧ 30 < inp.now - rs then
        (true, [Act.notify NotifyKind.powerAnomaly])
      else
        (paFlag0, [])
    else
      (paFlag0, [])
  let st2 := { st1 with running_since := some rs,
                        power_anomaly_alerted := paStep.1 }
  if MAX_RUN_MINUTES ≤ (inp.now - rs) / 60 then
    let cyc := power_cycle inp.settleSample
    if cyc.2 then
      ({ st2 with running_since := none, mode := Mode.normal },
       paStep.2 ++ [Act.cycleAttempt] ++ cyc.1
           ++ [Act.runSafe, Act.sleep POLL_INTERVAL_SECONDS])
    else
      ({ st2 with running_since := none },
       paStep.2 ++ [Act.cycleAttempt] ++ cyc.1
           ++ [Act.notify NotifyKind.cycleFixed, Act.sleep POLL_INTERVAL_SECONDS])
  else
    (st2, paStep.2 ++ [Act.sleep POLL_INTERVAL_SECONDS])

/-- The pump-idle branch of the tick (lines 487-507): close the run
window, and raise the one-shot no-run alert when the pump has not run
for at least `NO_RUN_ALERT_HOURS` hours. -/
def idleBranch (st0 : SupState) (inp : TickInput) : SupState × List Act :=
  let st1 := { st0 with running_since := none }
  if NO_RUN_ALERT_HOURS ≤ (inp.now - st1.last_pump_run) / 3600
      ∧ st1.no_run_alerted = false then
    ({ st1 with no_run_alerted := true },
     [Act.notify NotifyKind.noRun, Act.sleep POLL_INTERVAL_SECONDS])
  else
    (st1, [Act.sleep POLL_INTERVAL_SECONDS])

/-- One iteration of the `while True` body (lines 336-509), without the
exception boundary.  Order as in the source: absent sample skips the
tick; the hard-temperature interlock pre-empts everything; illumination
and uptime tracking; the unexpected-off check (which `continue`s);
voltage / signal / temperature-warning detectors; then the running or
idle branch.  Returns the new state and the tick's effects. -/
def tick (st : SupState) (inp : TickInput) : SupState × List Act :=
  match inp.sample with
  | none => (st, [Act.sleep POLL_INTERVAL_SECONDS])
  | some s =>
    let ts := check_temp_safety s
    if ts.1 then
      ({ st with running_since := none },
       ts.2 ++ [Act.sleep 300, Act.powerOn])
    else
      let illumActs := illumAlert st.last_illumination s.illumination
      let upActs := uptimeAlert st.last_uptime s.uptime
      let st2 := { st with last_illumination := some s.illumination,
                           last_uptime := some s.uptime }
      if s.output = false ∧ st2.mode = Mode.normal then
        (st2, illumActs ++ upActs
              ++ [Act.notify NotifyKind.unexpectedOff, Act.powerOn, Act.sleep 2])
      else
        let v := voltageStep st2.voltage_alerted s.voltage
        let r := rssiStep st2.rssi_alerted s.rssi
        let t := tempWarnStep st2.temp_warned s.temp_c
        let st3 := { st2 with voltage_alerted := v.1, rssi_alerted := r.1,
                              temp_warned := t.1 }
        let pre := illumActs ++ upActs ++ v.2 ++ r.2 ++ t.2
        let b := if is_pump_running (some s) then runningBranch st3 inp s
                 else idleBranch st3 inp
        (b.1, pre ++ b.2)

/-- One loop iteration including the `try/except` boundary (lines
336-513): an exception anywhere in the tick is caught, logged, and the
loop sleeps the normal poll interval and continues with the state as it
was. -/
def stepPair (st : SupState) (inp : TickInput) : SupState × List Act :=
  match inp.fault with
  | some _ => (st, [Act.sleep POLL_INTERVAL_SECONDS])
  | none => tick st inp

/-- Trace of the supervisor loop over a list of tick inputs: one entry
per tick recording the input, the post-tick state and the tick's
effects. -/
def loopTrace (st : SupState) : List TickInput → List (TickInput × SupState × List Act)
  | [] => []
  | inp :: rest =>
    let p := stepPair st inp
    (inp, p.1, p.2) :: loopTrace p.1 rest

/-- Outcome of the run-period monitor sub-loop of one safe-mode duty
cycle (lines 244-260). -/
inductive RunPhaseEnd where
| overtempEnd
| naturalStop (s : Status)
| fullRun
deriving DecidableEq

/-- The run-period monitor sub-loop of `run_safe_mode` (lines 244-260):
up to `SAFE_RUN_POLLS` polls; an absent sample is skipped; the
hard-temperature interlock breaks the run early (after forcing off and
notifying); a sample with the pump not running breaks early as a
natural stop; otherwise the run period completes.  Samples beyond the
supplied list are treated as absent. -/
def safeRunPhase : ℕ → List (Option Status) → RunPhaseEnd × List Act
  | 0, _ => (RunPhaseEnd.fullRun, [])
  | n + 1, samples =>
    match samples with
    | [] => safeRunPhase n []
    | none :: rest => safeRunPhase n rest
    | some s :: rest =>
      let ts := check_temp_safety s
      if ts.1 then
        (RunPhaseEnd.overtempEnd, ts.2)
      else if is_pump_running (some s) then
        let k := safeRunPhase n rest
        (k.1, ts.2 ++ k.2)
      else
        (RunPhaseEnd.naturalStop s, [])

/-- Result of one safe-mode duty cycle: either the procedure returns to
NORMAL or it keeps cycling. -/
inductive CycleOutcome where
| exitNormal
| continueCycling
deriving DecidableEq

/-- One duty cycle of `run_safe_mode` (lines 235-293), outcome only:
run the monitored on-period; if the pump stopped naturally, wait the
60 s confirmation delay and re-sample (`confirm`); the procedure
returns to NORMAL exactly when that re-sample is present and shows the
pump not running; in every other case (no natural stop, absent
re-sample, or the pump running again) the duty cycle continues. -/
def safeCycleStep (runSamples : List (Option Status)) (confirm : Option Status) :
    CycleOutcome :=
  match (safeRunPhase SAFE_RUN_POLLS runSamples).1 with
  | RunPhaseEnd.naturalStop _ =>
    match confirm with
    | some s => if ¬ (is_pump_running (some s) = true) then
                  CycleOutcome.exitNormal
                else
                  CycleOutcome.continueCycling
    | none => CycleOutcome.continueCycling
  | _ => CycleOutcome.continueCycling

/-- A healthy telemetry snapshot with the given power and voltage: plug
on, 30 °C, dark basement, strong WiFi, steady uptime.  Used to build
concrete scenario inputs. -/
def sampleNV (p v : ℚ) : Status :=
  { output := true, power := p, voltage := v, current := 4, temp_c := 30,
    illumination := "dark", rssi := -50, uptime := 1000 }

/-- A fault-free tick input at time `now` carrying the sample `s` (the
settle sample, read only if a power cycle happens, is absent). -/
def inpAt (now : ℚ) (s : Status) : TickInput :=
  { now := now, fault := none, sample := some s, settleSample := none }

/-- Scenario inputs for the continuous-run policy: power held at 450 W
for seven consecutive ticks, 30 s apart. -/
def runScene : List TickInput :=
  (List.range 7).map (fun i => inpAt (30 * i) (sampleNV 450 120))

/-- Scenario inputs for the voltage detector: the idle pump sampled at
voltages 122, 122, 108, 108, 121 on five consecutive ticks. -/
def voltScene : List TickInput :=
  ([122, 122, 108, 108, 121] : List ℚ).enum.map
    (fun p => inpAt (30 * p.1) (sampleNV 0 p.2))

/-- Recognizer for a voltage out-of-range notification (either side). -/
def isVoltageNotify : Act → Bool
  | Act.notify NotifyKind.voltageLow => true
  | Act.notify NotifyKind.voltageHigh => true
  | _ => false

/-- Recognizer for a weak-WiFi notification. -/
def isWifiNotify : Act → Bool
  | Act.notify NotifyKind.wifiWeak => true
  | _ => false

/-- Recognizer for a temperature-early-warning notification. -/
def isTempWarnNotify : Act → Bool
  | Act.notify NotifyKind.tempRising => true
  | _ => false

/-- The loop state after the illumination / uptime trackers and the
three level-triggered detectors have updated their fields on sample
`s` (the state called `st3` inside `tick`). -/
def detectorState (st : SupState) (s : Status) : SupState :=
  { st with last_illumination := some s.illumination,
            last_uptime := some s.uptime,
            voltage_alerted := (voltageStep st.voltage_alerted s.voltage).1,
            rssi_alerted := (rssiStep st.rssi_alerted s.rssi).1,
            temp_warned := (tempWarnStep st.temp_warned s.temp_c).1 }

/-- A sample whose temperature sits exactly at the hard cutoff
(60 °C), otherwise healthy and idle. -/
def tempCutoffSample : Status := { sampleNV 0 120 with temp_c := 60 }

/-- A sample taken with the plug output unexpectedly off and a device
uptime of 100 s, otherwise healthy and idle. -/
def rebootOffSample : Status :=
  { sampleNV 0 120 with output := false, uptime := 100 }

/-- A loop state remembering a device uptime of 500 s from the
previous tick. -/
def rebootState : SupState := { initState 0 with last_uptime := some 500 }

/-- A sample drawing exactly the run-threshold power (100 W),
otherwise healthy. -/
def thresholdSample : Status := sampleNV 100 120

/-! ### Helper lemmas about the individual pieces -/

theorem check_temp_safety_fired (s : Status) (h : MAX_TEMP_C < s.temp_c) :
    check_temp_safety s = (true, [Act.powerOff, Act.notify NotifyKind.overtemp]) := by
  simp only [check_temp_safety, if_pos h]

theorem check_temp_safety_quiet (s : Status) (h : s.temp_c ≤ MAX_TEMP_C) :
    check_temp_safety s = (false, []) := by
  simp only [check_temp_safety, if_neg (not_lt.mpr h)]

theorem illumAlert_mem {a : Act} {li : Option String} {il : String}
    (h : a ∈ illumAlert li il) : a = Act.notify NotifyKind.lightChanged := by
  unfold illumAlert at h
  cases li with
  | none => simp at h
  | some x => split at h <;> simp_all

theorem uptimeAlert_mem {a : Act} {lu : Option ℚ} {u : ℚ}
    (h : a ∈ uptimeAlert lu u) : a = Act.notify NotifyKind.rebooted := by
  unfold uptimeAlert at h
  cases lu with
  | none => simp at h
  | some x => split at h <;> simp_all

theorem voltageStep_mem {a : Act} {b : Bool} {v : ℚ}
    (h : a ∈ (voltageStep b v).2) :
    a = Act.notify NotifyKind.voltageLow ∨ a = Act.notify NotifyKind.voltageHigh := by
  unfold voltageStep at h
  split at h
  · split at h
    · simp at h
    · split at h <;> simp_all
  · simp at h

theorem rssiStep_mem {a : Act} {b : Bool} {r : Int}
    (h : a ∈ (rssiStep b r).2) : a = Act.notify NotifyKind.wifiWeak := by
  unfold rssiStep at h
  split at h
  · split at h <;> simp_all
  · simp at h

theorem tempWarnStep_mem {a : Act} {b : Bool} {t : ℚ}
    (h : a ∈ (tempWarnStep b t).2) : a = Act.notify NotifyKind.tempRising := by
  unfold tempWarnStep at h
  split at h
  · split at h <;> simp_all
  · split at h <;> simp_all

theorem voltageStep_flag (b : Bool) (v : ℚ) :
    (voltageStep b v).1 = decide (v < VOLTAGE_LOW ∨ VOLTAGE_HIGH < v) := by
  unfold voltageStep
  split
  · split <;> simp_all
  · simp_all

theorem rssiStep_flag (b : Bool) (r : Int) :
    (rssiStep b r).1 = decide (r < RSSI_WARN) := by
  unfold rssiStep
  split
  · split <;> simp_all
  · simp_all

theorem tempWarnStep_flag (b : Bool) (t : ℚ) (h : t ≤ MAX_TEMP_C) :
    (tempWarnStep b t).1 = decide (TEMP_WARN_C < t) := by
  unfold tempWarnStep
  split
  · split <;> simp_all
  · split
    · simp_all
    · rename_i hand hnle
      exact absurd ⟨not_le.mp hnle, h⟩ hand

theorem voltageStep_count (b : Bool) (v : ℚ) :
    (voltageStep b v).2.countP isVoltageNotify =
      if (v < VOLTAGE_LOW ∨ VOLTAGE_HIGH < v) ∧ b = false then 1 else 0 := by
  unfold voltageStep
  split <;> rename_i hv
  · cases b
    · have h1 : (v < VOLTAGE_LOW ∨ VOLTAGE_HIGH < v) ∧ (false : Bool) = false :=
        ⟨hv, rfl⟩
      rw [if_pos h1]
      by_cases hl : v < VOLTAGE_LOW <;>
        simp [hl, List.countP_cons, List.countP_nil, isVoltageNotify]
    · have h2 : ¬ ((v < VOLTAGE_LOW ∨ VOLTAGE_HIGH < v) ∧ (true : Bool) = false) := by
        simp
      rw [if_neg h2]
      rfl
  · have h3 : ¬ ((v < VOLTAGE_LOW ∨ VOLTAGE_HIGH < v) ∧ b = false) := by
      intro hc
      exact hv hc.1
    rw [if_neg h3]
    rfl

theorem rssiStep_count (b : Bool) (r : Int) :
    (rssiStep b r).2.countP isWifiNotify =
      if r < RSSI_WARN ∧ b = false then 1 else 0 := by
  unfold rssiStep
  split <;> rename_i hr
  · cases b <;> simp [hr, List.countP_cons, List.countP_nil, isWifiNotify]
  · simp [hr, List.countP_nil]

theorem tempWarnStep_count (b : Bool) (t : ℚ) (h : t ≤ MAX_TEMP_C) :
    (tempWarnStep b t).2.countP isTempWarnNotify =
      if TEMP_WARN_C < t ∧ b = false then 1 else 0 := by
  unfold tempWarnStep
  split <;> rename_i ht
  · cases b <;> simp [ht.1, List.countP_cons, List.countP_nil, isTempWarnNotify]
  · have ht2 : ¬ TEMP_WARN_C < t := by
      intro hc
      exact ht ⟨hc, h⟩
    split <;> simp [ht2, List.countP_nil]

/-! ### Tick-level equation lemmas -/

theorem tick_nosample (st : SupState) (now : ℚ) (fault : Option String)
    (settle : Option Status) :
    tick st ⟨now, fault, none, settle⟩ = (st, [Act.sleep POLL_INTERVAL_SECONDS]) := rfl

theorem tick_overtemp (st : SupState) (now : ℚ) (fault : Option String)
    (settle : Option Status) (s : Status) (h : MAX_TEMP_C < s.temp_c) :
    tick st ⟨now, fault, some s, settle⟩ =
      ({ st with running_since := none },
       [Act.powerOff, Act.notify NotifyKind.overtemp, Act.sleep 300, Act.powerOn]) := by
  show (let ts := check_temp_safety s; if ts.1 then _ else _) = _
  rw [check_temp_safety_fired s h]
  rfl

theorem tick_output_off (st : SupState) (now : ℚ) (fault : Option String)
    (settle : Option Status) (s : Status) (htemp : s.temp_c ≤ MAX_TEMP_C)
    (hoff : s.output = false) (hmode : st.mode = Mode.normal) :
    tick st ⟨now, fault, some s, settle⟩ =
      ({ st with last_illumination := some s.illumination,
                 last_uptime := some s.uptime },
       illumAlert st.last_illumination s.illumination ++
       uptimeAlert st.last_uptime s.uptime ++
       [Act.notify NotifyKind.unexpectedOff, Act.powerOn, Act.sleep 2]) := by
  show (let ts := check_temp_safety s; if ts.1 then _ else _) = _
  rw [check_temp_safety_quiet s htemp]
  simp only [if_neg Bool.false_ne_true]
  rw [if_pos ⟨hoff, hmode⟩]

theorem tick_reach (st : SupState) (now : ℚ) (fault : Option String)
    (settle : Option Status) (s : Status) (htemp : s.temp_c ≤ MAX_TEMP_C)
    (hno : ¬ (s.output = false ∧ st.mode = Mode.normal)) :
    tick st ⟨now, fault, some s, settle⟩ =
      (let st3 := detectorState st s
       let b := if is_pump_running (some s) then
                  runningBranch st3 ⟨now, fault, some s, settle⟩ s
                else
                  idleBranch st3 ⟨now, fault, some s, settle⟩
       (b.1, illumAlert st.last_illumination s.illumination ++
             uptimeAlert st.last_uptime s.uptime ++
             (voltageStep st.voltage_alerted s.voltage).2 ++
             (rssiStep st.rssi_alerted s.rssi).2 ++
             (tempWarnStep st.temp_warned s.temp_c).2 ++ b.2)) := by
  show (let ts := check_temp_safety s; if ts.1 then _ else _) = _
  rw [check_temp_safety_quiet s htemp]
  simp only [if_neg Bool.false_ne_true]
  rw [if_neg hno]
  rfl

/-! ### Branch-level lemmas -/

theorem idleBranch_eq (st0 : SupState) (inp : TickInput) :
    idleBranch st0 inp =
      if NO_RUN_ALERT_HOURS ≤ (inp.now - st0.last_pump_run) / 3600
          ∧ st0.no_run_alerted = false then
        ({ st0 with running_since := none, no_run_alerted := true },
         [Act.notify NotifyKind.noRun, Act.sleep POLL_INTERVAL_SECONDS])
      else
        ({ st0 with running_since := none },
         [Act.sleep POLL_INTERVAL_SECONDS]) := rfl

theorem runningBranch_voltage (st0 : SupState) (inp : TickInput) (s : Status) :
    (runningBranch st0 inp s).1.voltage_alerted = st0.voltage_alerted := by
  unfold runningBranch
  rcases hrs : st0.running_since with _ | r <;>
    simp only [hrs] <;> split_ifs <;> rfl

theorem runningBranch_rssi (st0 : SupState) (inp : TickInput) (s : Status) :
    (runningBranch st0 inp s).1.rssi_alerted = st0.rssi_alerted := by
  unfold runningBranch
  rcases hrs : st0.running_since with _ | r <;>
    simp only [hrs] <;> split_ifs <;> rfl

theorem runningBranch_tempw (st0 : SupState) (inp : TickInput) (s : Status) :
    (runningBranch st0 inp s).1.temp_warned = st0.temp_warned := by
  unfold runningBranch
  rcases hrs : st0.running_since with _ | r <;>
    simp only [hrs] <;> split_ifs <;> rfl

theorem runningBranch_lastrun (st0 : SupState) (inp : TickInput) (s : Status) :
    (runningBranch st0 inp s).1.last_pump_run = inp.now := by
  unfold runningBranch
  rcases hrs : st0.running_since with _ | r <;>
    simp only [hrs] <;> split_ifs <;> rfl

theorem runningBranch_cycle (st0 : SupState) (inp : TickInput) (s : Status) :
    Act.cycleAttempt ∈ (runningBranch st0 inp s).2 ↔
      MAX_RUN_MINUTES ≤ (inp.now - st0.running_since.getD inp.now) / 60 := by
  unfold runningBranch power_cycle
  rcases hrs : st0.running_since with _ | r <;>
    simp only [hrs, Option.getD] <;>
    split_ifs <;>
    simp_all

theorem runningBranch_runSafe (st0 : SupState) (inp : TickInput) (s : Status)
    (h : Act.runSafe ∈ (runningBranch st0 inp s).2) :
    (power_cycle inp.settleSample).2 = true ∧
      MAX_RUN_MINUTES ≤ (inp.now - st0.running_since.getD inp.now) / 60 := by
  unfold runningBranch power_cycle at h
  rcases hrs : st0.running_since with _ | r <;>
    simp only [hrs, Option.getD] at h ⊢ <;>
    split_ifs at h <;>
    simp_all [power_cycle]

theorem runningBranch_countP (st0 : SupState) (inp : TickInput) (s : Status)
    (q : Act → Bool)
    (h1 : q (Act.notify NotifyKind.powerAnomaly) = false)
    (h2 : q Act.cycleAttempt = false)
    (h3 : q Act.powerOff = false)
    (h4 : q Act.powerOn = false)
    (h5 : q (Act.notify NotifyKind.cycleFixed) = false)
    (h6 : q Act.runSafe = false)
    (h7 : ∀ x, q (Act.sleep x) = false) :
    (runningBranch st0 inp s).2.countP q = 0 := by
  unfold runningBranch power_cycle
  rcases hrs : st0.running_since with _ | r <;>
    simp only [hrs] <;>
    split_ifs <;>
    simp [List.countP_cons, List.countP_nil, h1, h2, h3, h4, h5, h6, h7]

theorem idleBranch_countP (st0 : SupState) (inp : TickInput) (q : Act → Bool)
    (h1 : q (Act.notify NotifyKind.noRun) = false)
    (h2 : ∀ x, q (Act.sleep x) = false) :
    (idleBranch st0 inp).2.countP q = 0 := by
  rw [idleBranch_eq]
  split_ifs <;> simp [List.countP_cons, List.countP_nil, h1, h2]

theorem runningBranch_pa_some (st0 : SupState) (inp : TickInput) (s : Status)
    (r : ℚ) (hrs : st0.running_since = some r) :
    ((runningBranch st0 inp s).1.power_anomaly_alerted = true ↔
      (st0.power_anomaly_alerted = true ∨
       Act.notify NotifyKind.powerAnomaly ∈ (runningBranch st0 inp s).2)) ∧
    (Act.notify NotifyKind.powerAnomaly ∈ (runningBranch st0 inp s).2 →
      st0.power_anomaly_alerted = false ∧ ¬ r = 0 ∧ 30 < inp.now - r ∧
      (s.power < PUMP_POWER_LOW ∨ PUMP_POWER_HIGH < s.power)) := by
  unfold runningBranch power_cycle
  simp only [hrs]
  split_ifs <;> simp_all

theorem runningBranch_pa_none (st0 : SupState) (inp : TickInput) (s : Status)
    (hrs : st0.running_since = none) :
    (runningBranch st0 inp s).1.power_anomaly_alerted = false ∧
    Act.notify NotifyKind.powerAnomaly ∉ (runningBranch st0 inp s).2 := by
  have h30 : ¬ ((30 : ℚ) < 0) := by norm_num
  unfold runningBranch power_cycle
  simp only [hrs, sub_self]
  split_ifs <;> simp_all

theorem runningBranch_rs (st0 : SupState) (inp : TickInput) (s : Status) :
    (runningBranch st0 inp s).1.running_since = some (st0.running_since.getD inp.now) ∨
    ((runningBranch st0 inp s).1.running_since = none ∧
      MAX_RUN_MINUTES ≤ (inp.now - st0.running_since.getD inp.now) / 60) := by
  unfold runningBranch power_cycle
  rcases hrs : st0.running_since with _ | r <;>
    simp only [hrs, Option.getD] <;>
    split_ifs <;>
    simp_all

theorem runningBranch_noRun (st0 : SupState) (inp : TickInput) (s : Status) :
    Act.notify NotifyKind.noRun ∉ (runningBranch st0 inp s).2 := by
  unfold runningBranch power_cycle
  rcases hrs : st0.running_since with _ | r <;>
    simp only [hrs] <;> split_ifs <;> simp_all

/-! ### Whole-tick lemmas -/

theorem countP_zero_of_all {q : Act → Bool} {l : List Act}
    (h : ∀ a ∈ l, q a = false) : l.countP q = 0 := by
  rw [List.countP_eq_zero]
  intro a ha
  rw [h a ha]
  exact Bool.false_ne_true

theorem tick_mem (st : SupState) (now : ℚ) (fault : Option String)
    (settle : Option Status) (s : Status) {a : Act}
    (htemp : s.temp_c ≤ MAX_TEMP_C)
    (hno : ¬ (s.output = false ∧ st.mode = Mode.normal))
    (h : a ∈ (tick st ⟨now, fault, some s, settle⟩).2) :
    (∃ k, a = Act.notify k ∧
      (k = NotifyKind.lightChanged ∨ k = NotifyKind.rebooted ∨
       k = NotifyKind.voltageLow ∨ k = NotifyKind.voltageHigh ∨
       k = NotifyKind.wifiWeak ∨ k = NotifyKind.tempRising)) ∨
    (is_pump_running (some s) = true ∧
      a ∈ (runningBranch (detectorState st s) ⟨now, fault, some s, settle⟩ s).2) ∨
    (is_pump_running (some s) = false ∧
      a ∈ (idleBranch (detectorState st s) ⟨now, fault, some s, settle⟩).2) := by
  rw [tick_reach st now fault settle s htemp hno] at h
  simp only [List.mem_append] at h
  rcases h with ((((hm | hm) | hm) | hm) | hm) | hm
  · exact Or.inl ⟨NotifyKind.lightChanged, illumAlert_mem hm, by tauto⟩
  · exact Or.inl ⟨NotifyKind.rebooted, uptimeAlert_mem hm, by tauto⟩
  · rcases voltageStep_mem hm with h1 | h1
    · exact Or.inl ⟨NotifyKind.voltageLow, h1, by tauto⟩
    · exact Or.inl ⟨NotifyKind.voltageHigh, h1, by tauto⟩
  · exact Or.inl ⟨NotifyKind.wifiWeak, rssiStep_mem hm, by tauto⟩
  · exact Or.inl ⟨NotifyKind.tempRising, tempWarnStep_mem hm, by tauto⟩
  · by_cases hp : is_pump_running (some s) = true
    · refine Or.inr (Or.inl ⟨hp, ?_⟩)
      simpa only [if_pos hp] using hm
    · refine Or.inr (Or.inr ⟨by simpa using hp, ?_⟩)
      simpa only [if_neg hp] using hm

theorem tick_lastrun (st : SupState) (inp : TickInput) :
    (tick st inp).1.last_pump_run = st.last_pump_run ∨
    (tick st inp).1.last_pump_run = inp.now := by
  rcases inp with ⟨now, fault, sample, settle⟩
  cases sample with
  | none => exact Or.inl rfl
  | some s =>
    by_cases ht : MAX_TEMP_C < s.temp_c
    · rw [tick_overtemp st now fault settle s ht]
      exact Or.inl rfl
    · have htemp := not_lt.mp ht
      by_cases hv : s.output = false ∧ st.mode = Mode.normal
      · rw [tick_output_off st now fault settle s htemp hv.1 hv.2]
        exact Or.inl rfl
      · rw [tick_reach st now fault settle s htemp hv]
        dsimp only
        by_cases hp : is_pump_running (some s) = true
        · rw [if_pos hp]
          exact Or.inr (runningBranch_lastrun _ _ _)
        · rw [if_neg hp, idleBranch_eq]
          split_ifs <;> exact Or.inl rfl

theorem tick_noRun (st : SupState) (inp : TickInput)
    (h : Act.notify NotifyKind.noRun ∈ (tick st inp).2) :
    NO_RUN_ALERT_HOURS ≤ (inp.now - st.last_pump_run) / 3600 := by
  rcases inp with ⟨now, fault, sample, settle⟩
  cases sample with
  | none => simp [tick_nosample] at h
  | some s =>
    by_cases ht : MAX_TEMP_C < s.temp_c
    · rw [tick_overtemp st now fault settle s ht] at h
      simp at h
    · have htemp := not_lt.mp ht
      by_cases hv : s.output = false ∧ st.mode = Mode.normal
      · rw [tick_output_off st now fault settle s htemp hv.1 hv.2] at h
        simp only [List.mem_append, List.mem_cons] at h
        rcases h with (hm | hm) | hm
        · exact absurd (illumAlert_mem hm) (by simp)
        · exact absurd (uptimeAlert_mem hm) (by simp)
        · simp at hm
      · rcases tick_mem st now fault settle s htemp hv h with
          ⟨k, hk, hks⟩ | ⟨hp, hm⟩ | ⟨hp, hm⟩
        · rcases hks with h1 | h1 | h1 | h1 | h1 | h1 <;> rw [h1] at hk <;> simp at hk
        · exact absurd hm (runningBranch_noRun _ _ _)
        · rw [idleBranch_eq] at hm
          split_ifs at hm with hc
          · exact hc.1
          · simp at hm



theorem check_temp_safety_spec (s : Status) :
    (check_temp_safety s).1 = true ↔ MAX_TEMP_C < s.temp_c := by
  unfold check_temp_safety
  split_ifs with h <;> simp [h]

theorem safeRunPhase_stop {s : Status} :
    ∀ (n : ℕ) (samples : List (Option Status)),
    (safeRunPhase n samples).1 = RunPhaseEnd.naturalStop s →
    s.power ≤ POWER_THRESHOLD_WATTS ∧ s.temp_c ≤ MAX_TEMP_C := by
  intro n
  induction n with
  | zero =>
    intro samples h
    simp [safeRunPhase] at h
  | succ m ih =>
    intro samples h
    match samples with
    | [] => exact ih [] h
    | none :: rest => exact ih rest h
    | some x :: rest =>
      unfold safeRunPhase at h
      dsimp only at h
      split_ifs at h with h1 h2
      · exact ih rest h
      · simp at h
        rcases h with ⟨rfl⟩
        refine ⟨?_, ?_⟩
        · have := h2
          simp [is_pump_running] at this
          exact this
        · rw [check_temp_safety_spec] at h1
          exact not_lt.mp h1

theorem safeCycleStep_exit (runSamples : List (Option Status))
    (confirm : Option Status) :
    safeCycleStep runSamples confirm = CycleOutcome.exitNormal ↔
      (∃ s, (safeRunPhase SAFE_RUN_POLLS runSamples).1 = RunPhaseEnd.naturalStop s) ∧
      (∃ c, confirm = some c ∧ c.power ≤ POWER_THRESHOLD_WATTS) := by
  unfold safeCycleStep
  rcases hp : (safeRunPhase SAFE_RUN_POLLS runSamples).1 with _ | s | _
  · simp [hp]
  · cases confirm with
    | none => simp [hp]
    | some c =>
      simp only [hp]
      by_cases hr : POWER_THRESHOLD_WATTS < c.power
      · rw [if_neg (by simp [is_pump_running, hr])]
        simp [not_le.mpr hr]
      · rw [if_pos (by simp [is_pump_running, hr])]
        simp [not_lt.mp hr]
  · simp [hp]

theorem tick_runSafe (st : SupState) (inp : TickInput)
    (h : Act.runSafe ∈ (tick st inp).2) :
    (power_cycle inp.settleSample).2 = true := by
  rcases inp with ⟨now, fault, sample, settle⟩
  cases sample with
  | none => simp [tick_nosample] at h
  | some s =>
    by_cases ht : MAX_TEMP_C < s.temp_c
    · rw [tick_overtemp st now fault settle s ht] at h
      simp at h
    · have htemp := not_lt.mp ht
      by_cases hv : s.output = false ∧ st.mode = Mode.normal
      · rw [tick_output_off st now fault settle s htemp hv.1 hv.2] at h
        simp only [List.mem_append, List.mem_cons] at h
        rcases h with (hm | hm) | hm
        · exact absurd (illumAlert_mem hm) (by simp)
        · exact absurd (uptimeAlert_mem hm) (by simp)
        · simp at hm
      · rcases tick_mem st now fault settle s htemp hv h with
          ⟨k, hk, hks⟩ | ⟨hp, hm⟩ | ⟨hp, hm⟩
        · rcases hks with h1 | h1 | h1 | h1 | h1 | h1 <;> rw [h1] at hk <;> simp at hk
        · exact (runningBranch_runSafe _ _ _ hm).1
        · rw [idleBranch_eq] at hm
          split_ifs at hm <;> simp at hm


/-! ### Remaining helper lemmas -/

theorem tick_running_mem (st : SupState) (now : ℚ) (fault : Option String)
    (settle : Option Status) (s : Status) {a : Act}
    (htemp : s.temp_c ≤ MAX_TEMP_C) (hout : s.output = true)
    (hrun : POWER_THRESHOLD_WATTS < s.power)
    (hk : ∀ k, a = Act.notify k →
      ¬ (k = NotifyKind.lightChanged ∨ k = NotifyKind.rebooted ∨
         k = NotifyKind.voltageLow ∨ k = NotifyKind.voltageHigh ∨
         k = NotifyKind.wifiWeak ∨ k = NotifyKind.tempRising)) :
    a ∈ (tick st ⟨now, fault, some s, settle⟩).2 ↔
      a ∈ (runningBranch (detectorState st s) ⟨now, fault, some s, settle⟩ s).2 := by
  have hp : is_pump_running (some s) = true := by simp [is_pump_running, hrun]
  constructor
  · intro h
    rcases tick_mem st now fault settle s htemp (by simp [hout]) h with
      ⟨k, hak, hks⟩ | ⟨_, hm⟩ | ⟨hp2, _⟩
    · exact absurd hks (hk k hak)
    · exact hm
    · rw [hp] at hp2
      exact absurd hp2 (by simp)
  · intro h
    rw [tick_reach st now fault settle s htemp (by simp [hout])]
    dsimp only
    rw [if_pos hp]
    simp only [List.mem_append]
    exact Or.inr h

theorem tick_flag_volt (st : SupState) (now : ℚ) (fault : Option String)
    (settle : Option Status) (s : Status)
    (htemp : s.temp_c ≤ MAX_TEMP_C)
    (hno : ¬ (s.output = false ∧ st.mode = Mode.normal)) :
    (tick st ⟨now, fault, some s, settle⟩).1.voltage_alerted =
        (voltageStep st.voltage_alerted s.voltage).1 ∧
    (tick st ⟨now, fault, some s, settle⟩).1.rssi_alerted =
        (rssiStep st.rssi_alerted s.rssi).1 ∧
    (tick st ⟨now, fault, some s, settle⟩).1.temp_warned =
        (tempWarnStep st.temp_warned s.temp_c).1 := by
  rw [tick_reach st now fault settle s htemp hno]
  dsimp only
  by_cases hp : is_pump_running (some s) = true
  · rw [if_pos hp]
    exact ⟨runningBranch_voltage _ _ _, runningBranch_rssi _ _ _,
           runningBranch_tempw _ _ _⟩
  · rw [if_neg hp, idleBranch_eq]
    split_ifs <;> exact ⟨rfl, rfl, rfl⟩

theorem tick_count_level (st : SupState) (now : ℚ) (fault : Option String)
    (settle : Option Status) (s : Status)
    (htemp : s.temp_c ≤ MAX_TEMP_C)
    (hno : ¬ (s.output = false ∧ st.mode = Mode.normal)) :
    (tick st ⟨now, fault, some s, settle⟩).2.countP isVoltageNotify =
        (voltageStep st.voltage_alerted s.voltage).2.countP isVoltageNotify ∧
    (tick st ⟨now, fault, some s, settle⟩).2.countP isWifiNotify =
        (rssiStep st.rssi_alerted s.rssi).2.countP isWifiNotify ∧
    (tick st ⟨now, fault, some s, settle⟩).2.countP isTempWarnNotify =
        (tempWarnStep st.temp_warned s.temp_c).2.countP isTempWarnNotify := by
  rw [tick_reach st now fault settle s htemp hno]
  dsimp only
  have hIl : ∀ q : Act → Bool, q (Act.notify NotifyKind.lightChanged) = false →
      (illumAlert st.last_illumination s.illumination).countP q = 0 := by
    intro q hq
    exact countP_zero_of_all (fun a ha => by rw [illumAlert_mem ha]; exact hq)
  have hUp : ∀ q : Act → Bool, q (Act.notify NotifyKind.rebooted) = false →
      (uptimeAlert st.last_uptime s.uptime).countP q = 0 := by
    intro q hq
    exact countP_zero_of_all (fun a ha => by rw [uptimeAlert_mem ha]; exact hq)
  have hV : ∀ q : Act → Bool, q (Act.notify NotifyKind.voltageLow) = false →
      q (Act.notify NotifyKind.voltageHigh) = false →
      (voltageStep st.voltage_alerted s.voltage).2.countP q = 0 := by
    intro q hq1 hq2
    refine countP_zero_of_all (fun a ha => ?_)
    rcases voltageStep_mem ha with h1 | h1 <;> rw [h1] <;> assumption
  have hR : ∀ q : Act → Bool, q (Act.notify NotifyKind.wifiWeak) = false →
      (rssiStep st.rssi_alerted s.rssi).2.countP q = 0 := by
    intro q hq
    exact countP_zero_of_all (fun a ha => by rw [rssiStep_mem ha]; exact hq)
  have hT : ∀ q : Act → Bool, q (Act.notify NotifyKind.tempRising) = false →
      (tempWarnStep st.temp_warned s.temp_c).2.countP q = 0 := by
    intro q hq
    exact countP_zero_of_all (fun a ha => by rw [tempWarnStep_mem ha]; exact hq)
  have hB : ∀ q : Act → Bool,
      q (Act.notify NotifyKind.powerAnomaly) = false →
      q Act.cycleAttempt = false → q Act.powerOff = false →
      q Act.powerOn = false → q (Act.notify NotifyKind.cycleFixed) = false →
      q Act.runSafe = false → q (Act.notify NotifyKind.noRun) = false →
      (∀ x, q (Act.sleep x) = false) →
      ((if is_pump_running (some s) = true then
          runningBranch (detectorState st s) ⟨now, fault, some s, settle⟩ s
        else
          idleBranch (detectorState st s) ⟨now, fault, some s, settle⟩).2.countP q
        = 0) := by
    intro q h1 h2 h3 h4 h5 h6 h7 h8
    split_ifs
    · exact runningBranch_countP _ _ _ q h1 h2 h3 h4 h5 h6 h8
    · exact idleBranch_countP _ _ q h7 h8
  refine ⟨?_, ?_, ?_⟩
  · simp only [List.countP_append]
    rw [hIl _ rfl, hUp _ rfl, hR _ rfl, hT _ rfl, hB _ rfl rfl rfl rfl rfl rfl rfl
      (fun x => rfl)]
    omega
  · simp only [List.countP_append]
    rw [hIl _ rfl, hUp _ rfl, hV _ rfl rfl, hT _ rfl,
      hB _ rfl rfl rfl rfl rfl rfl rfl (fun x => rfl)]
    omega
  · simp only [List.countP_append]
    rw [hIl _ rfl, hUp _ rfl, hV _ rfl rfl, hR _ rfl,
      hB _ rfl rfl rfl rfl rfl rfl rfl (fun x => rfl)]
    omega

theorem stepPair_noRun (st : SupState) (inp : TickInput)
    (h : Act.notify NotifyKind.noRun ∈ (stepPair st inp).2) :
    NO_RUN_ALERT_HOURS ≤ (inp.now - st.last_pump_run) / 3600 := by
  unfold stepPair at h
  cases hf : inp.fault with
  | some e =>
    rw [hf] at h
    simp at h
  | none =>
    rw [hf] at h
    exact tick_noRun st inp h

theorem stepPair_lastrun (st : SupState) (inp : TickInput) :
    (stepPair st inp).1.last_pump_run = st.last_pump_run ∨
    (stepPair st inp).1.last_pump_run = inp.now := by
  unfold stepPair
  cases hf : inp.fault with
  | some e => exact Or.inl rfl
  | none => exact tick_lastrun st inp

/-! ### The claims -/

/-- C1 (amended): on every tick, in either mode, a sampled temperature
strictly above the hard cutoff (default 60 °C) makes the supervisor
force the output off and send the critical overtemp alert before any
mode-specific logic runs: the tick performs exactly the interlock
effects (off, alert, 5-minute cooldown, on) and only clears the run
window; and the same interlock pre-empts the safe-mode duty-cycle run
monitor, which breaks its run period at once with the same forced-off
and alert effects.  The source fires the interlock on
`temp_c > MAX_TEMP_C`, not at the cutoff value itself. -/
theorem C1_hard_interlock (st : SupState) (now : ℚ) (fault : Option String)
    (settle : Option Status) (s : Status) (n : ℕ) (rest : List (Option Status))
    (h : MAX_TEMP_C < s.temp_c) :
    tick st ⟨now, fault, some s, settle⟩ =
      ({ st with running_since := none },
       [Act.powerOff, Act.notify NotifyKind.overtemp, Act.sleep 300, Act.powerOn]) ∧
    safeRunPhase (n + 1) (some s :: rest) =
      (RunPhaseEnd.overtempEnd, [Act.powerOff, Act.notify NotifyKind.overtemp]) := by
  constructor
  · exact tick_overtemp st now fault settle s h
  · unfold safeRunPhase
    dsimp only
    rw [check_temp_safety_fired s h]
    rfl

/-- Witness for C1: a concrete 61 °C sample makes the tick perform
exactly the interlock effects. -/
theorem C1_hard_interlock_witness :
    MAX_TEMP_C < ({ sampleNV 0 120 with temp_c := 61 } : Status).temp_c ∧
    tick (initState 0) ⟨0, none, some { sampleNV 0 120 with temp_c := 61 }, none⟩ =
      ({ initState 0 with running_since := none },
       [Act.powerOff, Act.notify NotifyKind.overtemp, Act.sleep 300, Act.powerOn]) :=
  ⟨by norm_num [MAX_TEMP_C, sampleNV],
   (C1_hard_interlock (initState 0) 0 none none _ 0 []
      (by norm_num [MAX_TEMP_C, sampleNV])).1⟩

/-- Counterexample to C1 as stated: at a sampled temperature of exactly
the hard cutoff (60 °C, "at or above") the code does not force the
output off and sends no critical alert, and mode-specific logic (here
the temperature-warning detector) still runs. -/
theorem C1_hard_interlock_cex :
    MAX_TEMP_C ≤ tempCutoffSample.temp_c ∧
    Act.powerOff ∉ (tick (initState 0) (inpAt 0 tempCutoffSample)).2 ∧
    Act.notify NotifyKind.overtemp ∉ (tick (initState 0) (inpAt 0 tempCutoffSample)).2 ∧
    Act.notify NotifyKind.tempRising ∈ (tick (initState 0) (inpAt 0 tempCutoffSample)).2 := by
  with_unfolding_all decide

/-- C2 (amended): the Recovery Procedure performs exactly the sequence
actuator off, wait the fixed off-duration (10 s), actuator on, wait the
fixed settle-duration (60 s), sample once, with no retries; its result
is "still stuck" if and only if the settle sample is present with
power strictly above the run threshold — at exactly the threshold, or
with no sample, the result is "cleared".  The source compares with
strict `>`, not "at or above". -/
theorem C2_recovery (settle : Option Status) :
    (power_cycle settle).1 =
      [Act.powerOff, Act.sleep POWER_CYCLE_OFF_SECONDS,
       Act.powerOn, Act.sleep POWER_CYCLE_SETTLE_SECONDS] ∧
    ((power_cycle settle).2 = true ↔
      ∃ s, settle = some s ∧ POWER_THRESHOLD_WATTS < s.power) := by
  refine ⟨rfl, ?_⟩
  cases settle <;> simp [power_cycle, is_pump_running]

/-- Counterexample to C2 as stated: a settle sample at exactly the run
threshold (100 W) yields result "cleared", refuting "still stuck if
and only if the sampled power is at or above the run threshold". -/
theorem C2_recovery_cex :
    (power_cycle (some thresholdSample)).2 = false ∧
    ¬ ((power_cycle (some thresholdSample)).2 = true ↔
       POWER_THRESHOLD_WATTS ≤ thresholdSample.power) := by
  with_unfolding_all decide

/-- C3: on a NORMAL tick with the pump running, the Recovery Procedure
is invoked exactly when the elapsed run window (which opens this tick
if unset) has reached the max-continuous-run limit (3 minutes); and in
the concrete scenario of 450 W held for seven consecutive ticks 30 s
apart, no recovery is triggered on ticks 1-6 and recovery is triggered
on tick 7. -/
theorem C3_run_limit (st : SupState) (now : ℚ) (fault : Option String)
    (settle : Option Status) (s : Status)
    (htemp : s.temp_c ≤ MAX_TEMP_C) (hout : s.output = true)
    (hrun : POWER_THRESHOLD_WATTS < s.power) :
    (Act.cycleAttempt ∈ (tick st ⟨now, fault, some s, settle⟩).2 ↔
      MAX_RUN_MINUTES ≤ (now - st.running_since.getD now) / 60) ∧
    (loopTrace (initState 0) runScene).map
        (fun e => decide (Act.cycleAttempt ∈ e.2.2)) =
      [false, false, false, false, false, false, true] := by
  constructor
  · have hiff := tick_running_mem st now fault settle s htemp hout hrun
      (a := Act.cycleAttempt) (by intro k hk; simp at hk)
    rw [hiff]
    exact runningBranch_cycle _ _ _
  · with_unfolding_all decide

/-- Witness for C3: the seven-tick 450 W scenario, with recovery
exactly on tick 7. -/
theorem C3_run_limit_witness :
    (loopTrace (initState 0) runScene).map
        (fun e => decide (Act.cycleAttempt ∈ e.2.2)) =
      [false, false, false, false, false, false, true] :=
  (C3_run_limit (initState 0) 0 none none (sampleNV 450 120)
    (by norm_num [sampleNV, MAX_TEMP_C]) rfl
    (by norm_num [sampleNV, POWER_THRESHOLD_WATTS])).2

/-- C4 (amended): a safe-mode duty cycle exits back to NORMAL exactly
when the run-period monitor saw a sample with power at or below the run
threshold (the first stop confirmation) and the re-sample taken after
the confirmation delay is present with power again at or below the
threshold (the second confirmation); a pump running again at
confirmation, or a missing re-sample, continues the duty cycle.  Any
natural-stop detection sample indeed shows power at or below the
threshold, and safe mode is entered by the supervisor only after a
power cycle that reports "still stuck".  The source compares with
`≤` (not running), not strictly "below". -/
theorem C4_safe_exit (runSamples : List (Option Status))
    (confirm : Option Status) (st : SupState) (inp : TickInput) (n : ℕ)
    (s : Status) :
    (safeCycleStep runSamples confirm = CycleOutcome.exitNormal ↔
      ((∃ s0, (safeRunPhase SAFE_RUN_POLLS runSamples).1 =
          RunPhaseEnd.naturalStop s0) ∧
       (∃ c, confirm = some c ∧ c.power ≤ POWER_THRESHOLD_WATTS))) ∧
    ((safeRunPhase n runSamples).1 = RunPhaseEnd.naturalStop s →
      s.power ≤ POWER_THRESHOLD_WATTS) ∧
    (Act.runSafe ∈ (tick st inp).2 → (power_cycle inp.settleSample).2 = true) :=
  ⟨safeCycleStep_exit runSamples confirm,
   fun h => (safeRunPhase_stop n runSamples h).1,
   tick_runSafe st inp⟩

/-- Witness for C4: a duty cycle that runs at 450 W, stops at 50 W and
confirms at 0 W exits to NORMAL. -/
theorem C4_safe_exit_witness :
    safeCycleStep [some (sampleNV 450 120), some (sampleNV 50 120)]
        (some (sampleNV 0 120)) = CycleOutcome.exitNormal ∧
    (sampleNV 50 120).power ≤ POWER_THRESHOLD_WATTS :=
  ⟨(C4_safe_exit [some (sampleNV 450 120), some (sampleNV 50 120)]
      (some (sampleNV 0 120)) (initState 0) (inpAt 0 (sampleNV 0 120))
      SAFE_RUN_POLLS (sampleNV 50 120)).1.mpr
      ⟨⟨sampleNV 50 120, by decide⟩, ⟨sampleNV 0 120, rfl, by decide⟩⟩,
   (C4_safe_exit [some (sampleNV 450 120), some (sampleNV 50 120)]
      (some (sampleNV 0 120)) (initState 0) (inpAt 0 (sampleNV 0 120))
      SAFE_RUN_POLLS (sampleNV 50 120)).2.1 (by decide)⟩

/-- Counterexample to C4 as stated: with the detection sample and the
confirmation re-sample both at exactly the run threshold (100 W) the
procedure exits to NORMAL although neither sample shows power strictly
below the threshold. -/
theorem C4_safe_exit_cex :
    safeCycleStep [some thresholdSample] (some thresholdSample) =
      CycleOutcome.exitNormal ∧
    ¬ (thresholdSample.power < POWER_THRESHOLD_WATTS) := by
  with_unfolding_all decide

/-- C5: each level-triggered detector (voltage, signal,
temperature-warning) notifies exactly once per excursion: on any tick
that reaches the detectors, the tick emits one notification of the
class precisely when the sample breaches the band and the class flag
was clear, and the new flag equals whether the sample breaches the
band — so a continuing excursion is silent and a return in range
re-arms the flag; and the concrete voltage sequence
[122, 122, 108, 108, 121] with floor 110 produces exactly one LOW
alert, at the third sample, and none after the fifth. -/
theorem C5_level_alerts (st : SupState) (now : ℚ) (fault : Option String)
    (settle : Option Status) (s : Status)
    (htemp : s.temp_c ≤ MAX_TEMP_C) (hout : s.output = true) :
    ((tick st ⟨now, fault, some s, settle⟩).1.voltage_alerted =
        decide (s.voltage < VOLTAGE_LOW ∨ VOLTAGE_HIGH < s.voltage)) ∧
    ((tick st ⟨now, fault, some s, settle⟩).2.countP isVoltageNotify =
      if (s.voltage < VOLTAGE_LOW ∨ VOLTAGE_HIGH < s.voltage) ∧
          st.voltage_alerted = false then 1 else 0) ∧
    ((tick st ⟨now, fault, some s, settle⟩).1.rssi_alerted =
        decide (s.rssi < RSSI_WARN)) ∧
    ((tick st ⟨now, fault, some s, settle⟩).2.countP isWifiNotify =
      if s.rssi < RSSI_WARN ∧ st.rssi_alerted = false then 1 else 0) ∧
    ((tick st ⟨now, fault, some s, settle⟩).1.temp_warned =
        decide (TEMP_WARN_C < s.temp_c)) ∧
    ((tick st ⟨now, fault, some s, settle⟩).2.countP isTempWarnNotify =
      if TEMP_WARN_C < s.temp_c ∧ st.temp_warned = false then 1 else 0) ∧
    ((loopTrace (initState 0) voltScene).map
        (fun e => e.2.2.countP isVoltageNotify) = [0, 0, 1, 0, 0]) := by
  have hno : ¬ (s.output = false ∧ st.mode = Mode.normal) := by simp [hout]
  obtain ⟨f1, f2, f3⟩ := tick_flag_volt st now fault settle s htemp hno
  obtain ⟨c1, c2, c3⟩ := tick_count_level st now fault settle s htemp hno
  refine ⟨?_, ?_, ?_, ?_, ?_, ?_, ?_⟩
  · rw [f1, voltageStep_flag]
  · rw [c1, voltageStep_count]
  · rw [f2, rssiStep_flag]
  · rw [c2, rssiStep_count]
  · rw [f3, tempWarnStep_flag _ _ htemp]
  · rw [c3, tempWarnStep_count _ _ htemp]
  · with_unfolding_all decide

/-- Witness for C5: the five-sample voltage scenario with exactly one
alert at the third sample. -/
theorem C5_level_alerts_witness :
    (loopTrace (initState 0) voltScene).map
        (fun e => e.2.2.countP isVoltageNotify) = [0, 0, 1, 0, 0] :=
  (C5_level_alerts (initState 0) 0 none none (sampleNV 0 120)
    (by norm_num [sampleNV, MAX_TEMP_C]) rfl).2.2.2.2.2.2

/-- C6 (amended): on a NORMAL-mode tick whose sample shows the output
unexpectedly off (interlock quiet), the supervisor sends the alert,
forces the output back on, and advances no further logic that tick —
except that the illumination and uptime trackers, which the source runs
before the output check, do update their remembered values and can emit
their event alerts.  All level-triggered alert flags, the run window,
the last-run timestamp and the no-run flag are untouched, and neither
recovery nor any level-triggered detector can run. -/
theorem C6_unexpected_off (st : SupState) (now : ℚ) (fault : Option String)
    (settle : Option Status) (s : Status)
    (htemp : s.temp_c ≤ MAX_TEMP_C) (hoff : s.output = false)
    (hmode : st.mode = Mode.normal) :
    tick st ⟨now, fault, some s, settle⟩ =
      ({ st with last_illumination := some s.illumination,
                 last_uptime := some s.uptime },
       illumAlert st.last_illumination s.illumination ++
       uptimeAlert st.last_uptime s.uptime ++
       [Act.notify NotifyKind.unexpectedOff, Act.powerOn, Act.sleep 2]) :=
  tick_output_off st now fault settle s htemp hoff hmode

/-- Witness for C6: a concrete unexpected-off tick forces the output
back on after the alert and leaves everything but the two tracker
fields unchanged. -/
theorem C6_unexpected_off_witness :
    rebootOffSample.temp_c ≤ MAX_TEMP_C ∧ rebootOffSample.output = false ∧
    tick rebootState ⟨0, none, some rebootOffSample, none⟩ =
      ({ rebootState with
           last_illumination := some rebootOffSample.illumination,
           last_uptime := some rebootOffSample.uptime },
       illumAlert rebootState.last_illumination rebootOffSample.illumination ++
       uptimeAlert rebootState.last_uptime rebootOffSample.uptime ++
       [Act.notify NotifyKind.unexpectedOff, Act.powerOn, Act.sleep 2]) :=
  ⟨by decide, by decide,
   C6_unexpected_off rebootState 0 none none rebootOffSample
     (by decide) (by decide) rfl⟩

/-- Counterexample to C6 as stated: an unexpected-off tick whose sample
also shows a device-uptime regression still fires the reboot detector
and updates the remembered uptime on that tick, refuting "no anomaly
detector is evaluated, no flag or timestamp is updated". -/
theorem C6_unexpected_off_cex :
    rebootOffSample.output = false ∧ rebootState.mode = Mode.normal ∧
    Act.notify NotifyKind.rebooted ∈ (tick rebootState (inpAt 0 rebootOffSample)).2 ∧
    (tick rebootState (inpAt 0 rebootOffSample)).1.last_uptime ≠
      rebootState.last_uptime := by
  with_unfolding_all decide

/-- C7: on a NORMAL tick with the pump running, the power-anomaly
notification fires only when the run window was already open more than
30 s ago, the suppression flag is clear, and the power is outside the
[350, 700] W band; a tick that emits the notification leaves the
suppression flag set; once the flag is set it stays set for the rest of
the run window (even if the anomaly clears) and no further anomaly
notification is emitted — so at most one notification per run window;
the flag resets exactly when a new run window opens, and no
notification fires on the opening tick. -/
theorem C7_power_anomaly (st : SupState) (now : ℚ) (fault : Option String)
    (settle : Option Status) (s : Status) (r : ℚ)
    (htemp : s.temp_c ≤ MAX_TEMP_C) (hout : s.output = true)
    (hrun : POWER_THRESHOLD_WATTS < s.power) :
    (Act.notify NotifyKind.powerAnomaly ∈ (tick st ⟨now, fault, some s, settle⟩).2 →
      ∃ r0, st.running_since = some r0 ∧ 30 < now - r0 ∧
        st.power_anomaly_alerted = false ∧
        (s.power < PUMP_POWER_LOW ∨ PUMP_POWER_HIGH < s.power)) ∧
    (Act.notify NotifyKind.powerAnomaly ∈ (tick st ⟨now, fault, some s, settle⟩).2 →
      (tick st ⟨now, fault, some s, settle⟩).1.power_anomaly_alerted = true) ∧
    (st.running_since = some r → st.power_anomaly_alerted = true →
      (tick st ⟨now, fault, some s, settle⟩).1.power_anomaly_alerted = true ∧
      Act.notify NotifyKind.powerAnomaly ∉ (tick st ⟨now, fault, some s, settle⟩).2) ∧
    (st.running_since = none →
      (tick st ⟨now, fault, some s, settle⟩).1.power_anomaly_alerted = false ∧
      Act.notify NotifyKind.powerAnomaly ∉ (tick st ⟨now, fault, some s, settle⟩).2) := by
  have hno : ¬ (s.output = false ∧ st.mode = Mode.normal) := by simp [hout]
  have hp : is_pump_running (some s) = true := by simp [is_pump_running, hrun]
  have hmem := tick_running_mem st now fault settle s htemp hout hrun
    (a := Act.notify NotifyKind.powerAnomaly)
    (by
      rintro k hk
      injection hk with h2
      subst h2
      simp)
  have hst1 : (tick st ⟨now, fault, some s, settle⟩).1 =
      (runningBranch (detectorState st s) ⟨now, fault, some s, settle⟩ s).1 := by
    rw [tick_reach st now fault settle s htemp hno]
    dsimp only
    rw [if_pos hp]
  refine ⟨?_, ?_, ?_, ?_⟩
  · intro h
    rw [hmem] at h
    cases hrs : st.running_since with
    | none => exact absurd h (runningBranch_pa_none (detectorState st s) ⟨now, fault, some s, settle⟩ s hrs).2
    | some r0 =>
      obtain ⟨hf, _, h30, hband⟩ := (runningBranch_pa_some (detectorState st s) ⟨now, fault, some s, settle⟩ s r0 hrs).2 h
      exact ⟨r0, rfl, h30, hf, hband⟩
  · intro h
    rw [hmem] at h
    cases hrs : st.running_since with
    | none => exact absurd h (runningBranch_pa_none (detectorState st s) ⟨now, fault, some s, settle⟩ s hrs).2
    | some r0 =>
      rw [hst1]
      exact ((runningBranch_pa_some (detectorState st s) ⟨now, fault, some s, settle⟩ s r0 hrs).1).mpr (Or.inr h)
  · intro hrs hflag
    constructor
    · rw [hst1]
      exact ((runningBranch_pa_some (detectorState st s) ⟨now, fault, some s, settle⟩ s r hrs).1).mpr (Or.inl hflag)
    · intro h
      rw [hmem] at h
      have hf2 : st.power_anomaly_alerted = false :=
        ((runningBranch_pa_some (detectorState st s) ⟨now, fault, some s, settle⟩ s r hrs).2 h).1
      rw [hflag] at hf2
      exact absurd hf2 (by simp)
  · intro hrs
    refine ⟨?_, ?_⟩
    · rw [hst1]
      exact (runningBranch_pa_none (detectorState st s) ⟨now, fault, some s, settle⟩ s hrs).1
    · intro h
      rw [hmem] at h
      exact (runningBranch_pa_none (detectorState st s) ⟨now, fault, some s, settle⟩ s hrs).2 h

/-- Witness for C7: on the tick that opens a run window at 450 W the
flag is reset and no anomaly notification fires. -/
theorem C7_power_anomaly_witness :
    (tick (initState 0) ⟨0, none, some (sampleNV 450 120), none⟩).1.power_anomaly_alerted
        = false ∧
    Act.notify NotifyKind.powerAnomaly ∉
      (tick (initState 0) ⟨0, none, some (sampleNV 450 120), none⟩).2 :=
  (C7_power_anomaly (initState 0) 0 none none (sampleNV 450 120) 0
    (by norm_num [sampleNV, MAX_TEMP_C]) rfl
    (by norm_num [sampleNV, POWER_THRESHOLD_WATTS])).2.2.2 rfl

/-- C8: the supervisor never terminates because of a single bad tick:
a trace records exactly one step per tick input (the loop survives
every tick), an injected exception is caught at the loop boundary
leaving the state unchanged and sleeping the normal poll interval, and
a missing telemetry sample skips the tick the same way, with no
process exit. -/
theorem C8_loop_robust (st : SupState) (inps : List TickInput)
    (inp : TickInput) (e : String) :
    (loopTrace st inps).length = inps.length ∧
    (inp.fault = some e →
      stepPair st inp = (st, [Act.sleep POLL_INTERVAL_SECONDS])) ∧
    (inp.fault = none → inp.sample = none →
      stepPair st inp = (st, [Act.sleep POLL_INTERVAL_SECONDS])) := by
  refine ⟨?_, ?_, ?_⟩
  · induction inps generalizing st with
    | nil => rfl
    | cons i rest ih => simp [loopTrace, ih]
  · intro h
    unfold stepPair
    rw [h]
  · intro h1 h2
    rcases inp with ⟨now, fault, sample, settle⟩
    simp only at h1 h2
    subst h1
    subst h2
    rfl

/-- Witness for C8: a concrete faulted tick is absorbed with the state
unchanged and a normal poll-interval sleep. -/
theorem C8_loop_robust_witness :
    stepPair (initState 0) ⟨0, some "offline", none, none⟩ =
      (initState 0, [Act.sleep POLL_INTERVAL_SECONDS]) :=
  (C8_loop_robust (initState 0) [] ⟨0, some "offline", none, none⟩ "offline").2.1 rfl

/-- C9: in safe mode, an unavailable re-sample after the confirmation
delay is treated as still stuck — the duty cycle continues — and an
exit to NORMAL is only possible with a present re-sample; an
unavailable sample is never taken as confirmation of a stop. -/
theorem C9_confirm_unavailable (runSamples : List (Option Status))
    (confirm : Option Status) :
    safeCycleStep runSamples none = CycleOutcome.continueCycling ∧
    (safeCycleStep runSamples confirm = CycleOutcome.exitNormal →
      confirm ≠ none) := by
  constructor
  · unfold safeCycleStep
    rcases hp : (safeRunPhase SAFE_RUN_POLLS runSamples).1 with _ | s | _ <;>
      simp [hp]
  · intro h hn
    subst hn
    rcases (safeCycleStep_exit runSamples none).mp h with ⟨_, ⟨c, hc, _⟩⟩
    simp at hc

/-- Witness for C9: a concrete cycle with a missing confirmation
re-sample continues cycling, while one with a present 0 W re-sample
exits. -/
theorem C9_confirm_unavailable_witness :
    safeCycleStep [some (sampleNV 50 120)] none = CycleOutcome.continueCycling ∧
    (some (sampleNV 0 120) : Option Status) ≠ none :=
  ⟨(C9_confirm_unavailable [some (sampleNV 50 120)] none).1,
   (C9_confirm_unavailable [some (sampleNV 50 120)]
      (some (sampleNV 0 120))).2 (by decide)⟩

/-- C10: with the last-run timestamp initialised to the process start
time, along any input trace with tick times at or after the start, the
one-shot no-run alert can only fire on a tick at least the no-run-alert
duration (24 h) after the start, regardless of how long the pump was
idle before startup. -/
theorem C10_no_run_start (t0 : ℚ) (inps : List TickInput)
    (hmono : ∀ i ∈ inps, t0 ≤ i.now) :
    ∀ e ∈ loopTrace (initState t0) inps,
      Act.notify NotifyKind.noRun ∈ e.2.2 →
        t0 + NO_RUN_ALERT_HOURS * 3600 ≤ e.1.now := by
  have key : ∀ (l : List TickInput) (st : SupState), t0 ≤ st.last_pump_run →
      (∀ i ∈ l, t0 ≤ i.now) → ∀ e ∈ loopTrace st l,
      Act.notify NotifyKind.noRun ∈ e.2.2 →
        t0 + NO_RUN_ALERT_HOURS * 3600 ≤ e.1.now := by
    intro l
    induction l with
    | nil =>
      intro st _ _ e he
      simp [loopTrace] at he
    | cons i rest ih =>
      intro st hst hm e he
      rw [loopTrace] at he
      rcases List.mem_cons.mp he with heq | hmem
      · subst heq
        intro hfire
        have h2 := stepPair_noRun st i hfire
        have h3 : NO_RUN_ALERT_HOURS * 3600 ≤ i.now - st.last_pump_run := by
          rw [le_div_iff₀ (by norm_num : (0:ℚ) < 3600)] at h2
          linarith
        show t0 + NO_RUN_ALERT_HOURS * 3600 ≤ i.now
        linarith
      · have hlast : t0 ≤ (stepPair st i).1.last_pump_run := by
          rcases stepPair_lastrun st i with h1 | h1
          · rw [h1]; exact hst
          · rw [h1]; exact hm i (List.mem_cons_self i rest)
        exact ih (stepPair st i).1 hlast
          (fun j hj => hm j (List.mem_cons_of_mem i hj)) e hmem
  exact key inps (initState t0) (le_refl t0) hmono

/-- Witness for C10: a single idle tick 25 h after a start at time 0
is covered by the bound. -/
theorem C10_no_run_start_witness :
    (0 : ℚ) + NO_RUN_ALERT_HOURS * 3600 ≤ (inpAt 90000 (sampleNV 0 120)).now :=
  C10_no_run_start 0 [inpAt 90000 (sampleNV 0 120)]
    (by
      intro i hi
      simp only [List.mem_singleton] at hi
      subst hi
      norm_num [inpAt])
    (inpAt 90000 (sampleNV 0 120),
      stepPair (initState 0) (inpAt 90000 (sampleNV 0 120)))
    (by simp [loopTrace])
    (by with_unfolding_all decide)

end SumpPump
